import Mathlib

/-!
Shallow embedding of the pdvpracenje invoice-management dashboard
(invoice verification component, organization/tenant context, membership
manager, organization profile form), together with the theorems that
settle the specification claims about it.

JavaScript values are modelled explicitly where the code relies on
dynamic typing and truthiness: `JSNumber` models a JS number restricted
to the integer values the claims exercise (plus `nan`), and `JSValue`
models the dynamic values that may inhabit an `any`-typed column such as
`line_items`.
-/

namespace PdvPracenje

/-- JS numbers as used here: an integer value or NaN.  (The claims never
depend on fractional or overflow behaviour, so an `Int` carrier
suffices.) -/
inductive JSNumber where
  | nan
  | val (n : Int)
deriving DecidableEq, Repr

/-- Dynamic JS values that can appear in an `any`-typed field. -/
inductive JSValue where
  | null
  | undefined
  | bool (b : Bool)
  | num (n : JSNumber)
  | str (s : String)
  | arr (xs : List JSValue)
  | obj (fields : List (String × JSValue))

/-- JS truthiness: `null`, `undefined`, `false`, `0`, `NaN` and the empty
string are falsy; every array and object is truthy. -/
def jsTruthy : JSValue → Bool
  | .null => false
  | .undefined => false
  | .bool b => b
  | .num .nan => false
  | .num (.val n) => n != 0
  | .str s => s != ""
  | .arr _ => true
  | .obj _ => true

/-- `parseLineItems` from the invoice-verification component: returns the
input if falsy-guarded checks pass — `if (!lineItems) return []`, then
`Array.isArray`, then the string branch that `JSON.parse`s and keeps the
result only when it is an array.  `JSON.parse` is abstracted as a
function `jsonParse : String → Option JSValue` (`none` models a thrown
`SyntaxError`). -/
def parseLineItems (jsonParse : String → Option JSValue) (lineItems : JSValue) :
    List JSValue :=
  if jsTruthy lineItems = false then []
  else
    match lineItems with
    | .arr xs => xs
    | .str s =>
      match jsonParse s with
      | some (.arr xs) => xs
      | _ => []
    | _ => []

/-! ## Invoice status machine (verification view) -/

/-- One entry of `statusConfig`: label and styling classes. -/
structure StatusInfo where
  label : String
  color : String
  bgColor : String
deriving DecidableEq, Repr

/-- The `pending` entry of `statusConfig`. -/
def pendingStatusInfo : StatusInfo :=
  ⟨"Na cekanju", "text-yellow-400", "bg-yellow-500/20"⟩

/-- `statusConfig` record lookup: `some` on the five defined statuses,
`none` (JS `undefined`) on any other key. -/
def statusConfig : String → Option StatusInfo := fun s =>
  if s = "pending" then some pendingStatusInfo
  else if s = "processed" then
    some ⟨"Obradeno - ceka provjeru", "text-blue-400", "bg-blue-500/20"⟩
  else if s = "verified" then
    some ⟨"Provjereno", "text-lime-400", "bg-lime-500/20"⟩
  else if s = "sent_to_accountant" then
    some ⟨"Poslano racunovodji", "text-purple-400", "bg-purple-500/20"⟩
  else if s = "error" then
    some ⟨"Greska", "text-red-400", "bg-red-500/20"⟩
  else none

/-- The `currentStatus` binding: the stored status cast to the status
union, falling back to `pending`.  The cast is erased at runtime, so only
a falsy (empty) string is replaced by `pending`. -/
def currentStatus (status : String) : String :=
  if status = "" then "pending" else status

/-- `const statusInfo = statusConfig[currentStatus] || statusConfig.pending`. -/
def statusInfo (status : String) : StatusInfo :=
  (statusConfig (currentStatus status)).getD pendingStatusInfo

/-- The verify action button is rendered (in the non-editing action row)
exactly under the condition that `currentStatus` equals `processed`. -/
def showVerifyAction (status : String) : Bool :=
  currentStatus status == "processed"

/-- The send-to-accountant button is rendered exactly under
the condition that `currentStatus` equals `verified`. -/
def showSendToAccountantAction (status : String) : Bool :=
  currentStatus status == "verified"

/-! ## Invoice rows and remote updates -/

/-- The `Invoice` interface of the verification component.  Nullable
columns are `Option`; `line_items` is an `any` column that may hold an
array, a serialized string, or null. -/
structure Invoice where
  id : String
  invoice_number : Option String
  invoice_date : Option String
  vendor_name : Option String
  vendor_address : Option String
  vendor_tax_id : Option String
  vendor_pdv : Option String
  buyer_name : Option String
  buyer_address : Option String
  buyer_tax_id : Option String
  subtotal : Option JSNumber
  tax_amount : Option JSNumber
  total_amount : Option JSNumber
  currency : String
  line_items : JSValue
  notes : Option String
  file_url : Option String
  file_type : String
  status : String
  created_at : String
  user_id : String

/-- A remote `update(...)` body over the editable invoice columns: `some`
means the column appears in the payload (with the given new value),
`none` means the column is absent and therefore untouched. -/
structure UpdatePayload where
  invoice_number : Option (Option String)
  invoice_date : Option (Option String)
  vendor_name : Option (Option String)
  vendor_address : Option (Option String)
  vendor_tax_id : Option (Option String)
  vendor_pdv : Option (Option String)
  buyer_name : Option (Option String)
  buyer_address : Option (Option String)
  buyer_tax_id : Option (Option String)
  subtotal : Option (Option JSNumber)
  tax_amount : Option (Option JSNumber)
  total_amount : Option (Option JSNumber)
  currency : Option String
  notes : Option (Option String)
  status : Option String

/-- Apply an update payload to one row: columns present in the payload
are overwritten, absent columns keep the stored value. -/
def applyPayload (p : UpdatePayload) (inv : Invoice) : Invoice :=
  { inv with
    invoice_number := p.invoice_number.getD inv.invoice_number
    invoice_date := p.invoice_date.getD inv.invoice_date
    vendor_name := p.vendor_name.getD inv.vendor_name
    vendor_address := p.vendor_address.getD inv.vendor_address
    vendor_tax_id := p.vendor_tax_id.getD inv.vendor_tax_id
    vendor_pdv := p.vendor_pdv.getD inv.vendor_pdv
    buyer_name := p.buyer_name.getD inv.buyer_name
    buyer_address := p.buyer_address.getD inv.buyer_address
    buyer_tax_id := p.buyer_tax_id.getD inv.buyer_tax_id
    subtotal := p.subtotal.getD inv.subtotal
    tax_amount := p.tax_amount.getD inv.tax_amount
    total_amount := p.total_amount.getD inv.total_amount
    currency := p.currency.getD inv.currency
    notes := p.notes.getD inv.notes
    status := p.status.getD inv.status }

/-- The body of the remote call made by `handleVerify`: an update
setting the status column to `verified` and nothing else. -/
def verifyPayload : UpdatePayload :=
  ⟨none, none, none, none, none, none, none, none, none, none, none, none,
   none, none, some "verified"⟩

/-- One row under `handleVerify`: the eq-filter on the id column
means a row is updated exactly when its id matches. -/
def verifyRow (targetId : String) (r : Invoice) : Invoice :=
  if r.id = targetId then applyPayload verifyPayload r else r

/-- `handleVerify` over the `invoices` table. -/
def handleVerify (targetId : String) (db : List Invoice) : List Invoice :=
  db.map (verifyRow targetId)

/-! ## Saving verification-form edits (`handleSave`) -/

/-- JS `Number(...)` on a string, on the fragment the program exercises:
surrounding whitespace is ignored, a blank string coerces to `0`, an
optional-signed run of digits coerces to that integer, and anything else
yields `NaN`.  (Fractional and exponent literals are outside what the
claims test and are not modelled.) -/
def jsStringToNumber (s : String) : JSNumber :=
  let ws : Char → Bool := fun c => c == ' ' || c == '\t' || c == '\n' || c == '\r'
  let t := ((s.toList.dropWhile ws).reverse.dropWhile ws).reverse
  if t = [] then .val 0
  else
    match t with
    | '-' :: cs => if cs ≠ [] ∧ cs.all Char.isDigit
        then .val (-(Int.ofNat (cs.foldl (fun a c => a * 10 + (c.toNat - 48)) 0)))
        else .nan
    | '+' :: cs => if cs ≠ [] ∧ cs.all Char.isDigit
        then .val (Int.ofNat (cs.foldl (fun a c => a * 10 + (c.toNat - 48)) 0))
        else .nan
    | cs => if cs.all Char.isDigit
        then .val (Int.ofNat (cs.foldl (fun a c => a * 10 + (c.toNat - 48)) 0))
        else .nan

/-- A numeric form field holds either the number it was initialised with
(`invoice.subtotal || 0`) or the raw string typed into the input. -/
inductive NumField where
  | ofNum (n : JSNumber)
  | ofStr (s : String)
deriving DecidableEq, Repr

/-- JS `Number(...)` over a number-or-string form value: numbers pass
through unchanged (NaN included), strings are parsed. -/
def jsToNumber : NumField → JSNumber
  | .ofNum n => n
  | .ofStr s => jsStringToNumber s

/-- The verification form state (`formData`). -/
structure SaveFormData where
  invoice_number : String
  invoice_date : String
  vendor_name : String
  vendor_address : String
  vendor_tax_id : String
  vendor_pdv : String
  buyer_name : String
  buyer_address : String
  buyer_tax_id : String
  subtotal : NumField
  tax_amount : NumField
  total_amount : NumField
  currency : String
  notes : String
deriving DecidableEq, Repr

/-- The update body sent by `handleSave`: the spread form data with the
three monetary fields passed through `Number(...)`. -/
structure SavePayload where
  invoice_number : String
  invoice_date : String
  vendor_name : String
  vendor_address : String
  vendor_tax_id : String
  vendor_pdv : String
  buyer_name : String
  buyer_address : String
  buyer_tax_id : String
  subtotal : JSNumber
  tax_amount : JSNumber
  total_amount : JSNumber
  currency : String
  notes : String
deriving DecidableEq, Repr

/-- Outcome of a save attempt.  `validationFailure` exists so that the
parse-or-reject contract of the spec is statable; the source has no
validation branch and never produces it. -/
inductive SaveResult where
  | updated (p : SavePayload)
  | validationFailure (msg : String)
deriving DecidableEq, Repr

/-- `handleSave`: builds the update body by spreading `formData` and
coercing `subtotal`, `tax_amount`, `total_amount` with `Number(...)`.
No input validation is performed on the client before the remote call. -/
def handleSave (fd : SaveFormData) : SaveResult :=
  .updated
    ⟨fd.invoice_number, fd.invoice_date, fd.vendor_name, fd.vendor_address,
     fd.vendor_tax_id, fd.vendor_pdv, fd.buyer_name, fd.buyer_address,
     fd.buyer_tax_id, jsToNumber fd.subtotal, jsToNumber fd.tax_amount,
     jsToNumber fd.total_amount, fd.currency, fd.notes⟩

/-! ## Organization / tenant context -/

/-- The keys the program reads out of the free-form `settings` map
(`Record<string, any>`); `none` models an absent key. -/
structure OrgSettings where
  pib : Option String
  pdv_number : Option String
  address : Option String
  email : Option String
  phone : Option String
deriving DecidableEq, Repr

/-- `OrganizationWithRole`: an organization row joined with the
membership role of the caller. -/
structure OrgEntry where
  id : String
  name : String
  pib : Option String
  pdv_number : Option String
  address : Option String
  city : Option String
  postal_code : Option String
  email : Option String
  phone : Option String
  accountant_email : Option String
  settings : OrgSettings
  role : String
deriving DecidableEq, Repr

/-- Tenant-context state: the membership list, the current selection,
and the `current_organization_id` column persisted on the profile row
of the caller. -/
structure OrgState where
  organizations : List OrgEntry
  currentOrganization : Option OrgEntry
  profileOrgId : Option String
deriving DecidableEq, Repr

/-- `getCurrentOrgFromProfile` returns
`profile?.current_organization_id || null`: a missing or falsy (empty)
stored id reads back as null. -/
def normalizeSavedOrgId : Option String → Option String
  | some s => if s = "" then none else some s
  | none => none

/-- `refreshOrganizations` on a freshly fetched membership list: store
the list; if empty, clear the selection; otherwise restore the entry
matching the persisted profile id (`orgs.find(o => o.id === savedOrgId)`)
or fall back to the first entry and persist its id. -/
def refreshOrganizations (fetched : List OrgEntry) (st : OrgState) : OrgState :=
  match fetched with
  | [] =>
    { organizations := fetched, currentOrganization := none,
      profileOrgId := st.profileOrgId }
  | o0 :: _ =>
    match fetched.find? (fun o => normalizeSavedOrgId st.profileOrgId == some o.id) with
    | some savedOrg =>
      { organizations := fetched, currentOrganization := some savedOrg,
        profileOrgId := st.profileOrgId }
    | none =>
      { organizations := fetched, currentOrganization := some o0,
        profileOrgId := some o0.id }

/-- `switchOrganization(orgId)`: look the id up in the current membership
list; on a hit set the selection and persist the id, otherwise do
nothing. -/
def switchOrganization (orgId : String) (st : OrgState) : OrgState :=
  match st.organizations.find? (fun o => o.id == orgId) with
  | some org =>
    { st with currentOrganization := some org, profileOrgId := some orgId }
  | none => st

/-! ## Membership manager (`handleRemoveMember`) -/

/-- A row of the members screen (profile enrichment omitted: the claims
only touch id and role). -/
structure Member where
  id : String
  user_id : String
  role : String
deriving DecidableEq, Repr

/-- Outcome of a remove attempt, as surfaced to the user. -/
inductive RemoveResult where
  | rejected (msg : String)
  | cancelled
  | removed
deriving DecidableEq, Repr

/-- `handleRemoveMember`: an owner is rejected up front with an error
toast; otherwise the browser confirm dialog gates the destructive step;
on confirmation the membership row is deleted
(a delete filtered on the member id) and `loadMembers` is triggered.
Returns the surfaced outcome, the resulting table, and whether a list
reload was triggered. -/
def handleRemoveMember (db : List Member) (member : Member) (confirmed : Bool) :
    RemoveResult × List Member × Bool :=
  if member.role = "owner" then
    (.rejected "Ne mozete ukloniti vlasnika", db, false)
  else if confirmed = false then
    (.cancelled, db, false)
  else
    (.removed, db.filter (fun m => m.id != member.id), true)

/-! ## First-class vs settings-map merge (profile form and companyData) -/

/-- JS `a || b` where `a` is a string-or-nullish value: nullish or empty
falls through to the fallback. -/
def jsOrStr (v : Option String) (fallback : String) : String :=
  match v with
  | some s => if s = "" then fallback else s
  | none => fallback

/-- Truthiness of a string-or-nullish value. -/
def strTruthy : Option String → Bool
  | some s => s != ""
  | none => false

/-- The composed address shown for a truthy first-class address: the
template string appending a comma-separated city and a space-separated
postal code, each only when truthy. -/
def composedAddress (o : OrgEntry) : String :=
  (o.address.getD "")
    ++ (if strTruthy o.city then ", " ++ o.city.getD "" else "")
    ++ (if strTruthy o.postal_code then " " ++ o.postal_code.getD "" else "")

/-- The merged company data derived in the verification view from
`currentOrganization` (which may be null): each tax/contact field is
the first-class column, else the settings-map value, else the empty
string; address composes the first-class address parts when the
first-class address is truthy. -/
structure CompanyData where
  name : String
  pib : String
  pdv_number : String
  address : String
  email : String
  phone : String
deriving DecidableEq, Repr

/-- `companyData` of the verification component. -/
def companyData : Option OrgEntry → CompanyData
  | none => ⟨"", "", "", "", "", ""⟩
  | some o =>
    ⟨o.name,
     jsOrStr o.pib (jsOrStr o.settings.pib ""),
     jsOrStr o.pdv_number (jsOrStr o.settings.pdv_number ""),
     if strTruthy o.address then composedAddress o
     else jsOrStr o.settings.address "",
     jsOrStr o.email (jsOrStr o.settings.email ""),
     jsOrStr o.phone (jsOrStr o.settings.phone "")⟩

/-- The settings page form after the merge effect ran for a non-null
`currentOrganization`. -/
structure ProfileFormData where
  name : String
  pib : String
  pdv_number : String
  address : String
  email : String
  phone : String
  accountant_email : String
deriving DecidableEq, Repr

/-- The settings page merge into `setFormData`: direct columns first, then
the settings map, then the empty string. -/
def mergedProfileForm (o : OrgEntry) : ProfileFormData :=
  ⟨jsOrStr (some o.name) "",
   jsOrStr o.pib (jsOrStr o.settings.pib ""),
   jsOrStr o.pdv_number (jsOrStr o.settings.pdv_number ""),
   if strTruthy o.address then composedAddress o
   else jsOrStr o.settings.address "",
   jsOrStr o.email (jsOrStr o.settings.email ""),
   jsOrStr o.phone (jsOrStr o.settings.phone ""),
   jsOrStr o.accountant_email ""⟩

/-! ## Theorems -/

/-- C1: `parseLineItems` returns a native array unchanged, returns the
parsed array for a string whose JSON parse yields an array, and returns
the empty array for null, undefined, a string that fails to parse, and a
string whose parse yields a non-array.  The parse function is abstract,
constrained only to reject the empty string as `JSON.parse` does. -/
theorem parseLineItems_spec (jsonParse : String → Option JSValue)
    (hjp : jsonParse "" = none) (v : JSValue) :
    (∀ xs, v = JSValue.arr xs → parseLineItems jsonParse v = xs) ∧
    (∀ s xs, v = JSValue.str s → jsonParse s = some (JSValue.arr xs) →
      parseLineItems jsonParse v = xs) ∧
    ((v = JSValue.null ∨ v = JSValue.undefined) →
      parseLineItems jsonParse v = []) ∧
    (∀ s, v = JSValue.str s → jsonParse s = none →
      parseLineItems jsonParse v = []) ∧
    (∀ s w, v = JSValue.str s → jsonParse s = some w →
      (∀ xs, w ≠ JSValue.arr xs) → parseLineItems jsonParse v = []) := by
  refine ⟨?_, ?_, ?_, ?_, ?_⟩
  · rintro xs rfl
    simp [parseLineItems, jsTruthy]
  · rintro s xs rfl hp
    by_cases hs : s = ""
    · subst hs
      rw [hjp] at hp
      exact absurd hp (by simp)
    · simp [parseLineItems, jsTruthy, hs, hp]
  · rintro (rfl | rfl) <;> simp [parseLineItems, jsTruthy]
  · rintro s rfl hp
    by_cases hs : s = ""
    · simp [parseLineItems, jsTruthy, hs]
    · simp [parseLineItems, jsTruthy, hs, hp]
  · rintro s w rfl hp hw
    by_cases hs : s = ""
    · simp [parseLineItems, jsTruthy, hs]
    · cases w with
      | arr xs => exact absurd rfl (hw xs)
      | null => simp [parseLineItems, jsTruthy, hs, hp]
      | undefined => simp [parseLineItems, jsTruthy, hs, hp]
      | bool b => simp [parseLineItems, jsTruthy, hs, hp]
      | num n => simp [parseLineItems, jsTruthy, hs, hp]
      | str t => simp [parseLineItems, jsTruthy, hs, hp]
      | obj fl => simp [parseLineItems, jsTruthy, hs, hp]

/-- A sample parse function for exercising `parseLineItems`: parses the
one literal the witness uses and rejects everything else. -/
def demoParse : String → Option JSValue := fun s =>
  if s = "[10]" then some (JSValue.arr [JSValue.num (JSNumber.val 10)])
  else none

/-- C1 witness: a serialized one-element array round-trips through
`parseLineItems`. -/
theorem parseLineItems_spec_witness :
    parseLineItems demoParse (JSValue.str "[10]") =
      [JSValue.num (JSNumber.val 10)] :=
  (parseLineItems_spec demoParse (by simp [demoParse]) (JSValue.str "[10]")).2.1
    "[10]" [JSValue.num (JSNumber.val 10)] rfl (by simp [demoParse])

/-- C2: any stored status outside the five defined states resolves, via
`statusConfig[currentStatus] || statusConfig.pending`, to exactly the
pending entry - the same label and styling as a stored status of
`pending`. -/
theorem statusInfo_unknown_is_pending (s : String)
    (h1 : s ≠ "pending") (h2 : s ≠ "processed") (h3 : s ≠ "verified")
    (h4 : s ≠ "sent_to_accountant") (h5 : s ≠ "error") :
    statusInfo s = statusInfo "pending" ∧ statusInfo s = pendingStatusInfo := by
  by_cases hs : s = ""
  · subst hs
    simp [statusInfo, currentStatus, statusConfig]
  · simp [statusInfo, currentStatus, statusConfig, hs, h1, h2, h3, h4, h5]

/-- C2 witness: the unrecognized status `"draft"` displays as pending. -/
theorem statusInfo_unknown_is_pending_witness :
    statusInfo "draft" = statusInfo "pending" ∧
      statusInfo "draft" = pendingStatusInfo :=
  statusInfo_unknown_is_pending "draft" (by decide) (by decide) (by decide)
    (by decide) (by decide)

/-- C3: in the action row, the verify button is available exactly for a
stored status of `processed`, and the send-to-accountant button exactly
for `verified`; every other stored value (unrecognized ones included)
offers neither. -/
theorem invoiceActions_gated (s : String) :
    (showVerifyAction s = true ↔ s = "processed") ∧
    (showSendToAccountantAction s = true ↔ s = "verified") := by
  by_cases hs : s = ""
  · subst hs
    simp [showVerifyAction, showSendToAccountantAction, currentStatus]
  · simp [showVerifyAction, showSendToAccountantAction, currentStatus, hs]

/-- C3 witness: `processed` enables verify; the unrecognized `"draft"`
enables neither action. -/
theorem invoiceActions_gated_witness :
    showVerifyAction "processed" = true ∧
      showVerifyAction "draft" ≠ true ∧
      showSendToAccountantAction "draft" ≠ true :=
  ⟨(invoiceActions_gated "processed").1.mpr rfl,
   fun h => absurd ((invoiceActions_gated "draft").1.mp h) (by decide),
   fun h => absurd ((invoiceActions_gated "draft").2.mp h) (by decide)⟩

/-- C4: the update body of the verify action carries exactly the status
column (set to `verified`); applied through the id filter it rewrites the
status of the matching row, leaves every other field of that row intact,
and leaves rows with a different id entirely unchanged. -/
theorem handleVerify_writes_only_status (tid : String) (r : Invoice) :
    (verifyPayload.status = some "verified" ∧
      verifyPayload.invoice_number = none ∧ verifyPayload.invoice_date = none ∧
      verifyPayload.vendor_name = none ∧ verifyPayload.vendor_address = none ∧
      verifyPayload.vendor_tax_id = none ∧ verifyPayload.vendor_pdv = none ∧
      verifyPayload.buyer_name = none ∧ verifyPayload.buyer_address = none ∧
      verifyPayload.buyer_tax_id = none ∧ verifyPayload.subtotal = none ∧
      verifyPayload.tax_amount = none ∧ verifyPayload.total_amount = none ∧
      verifyPayload.currency = none ∧ verifyPayload.notes = none) ∧
    (r.id = tid →
      (verifyRow tid r).status = "verified" ∧
      (verifyRow tid r).id = r.id ∧
      (verifyRow tid r).invoice_number = r.invoice_number ∧
      (verifyRow tid r).invoice_date = r.invoice_date ∧
      (verifyRow tid r).vendor_name = r.vendor_name ∧
      (verifyRow tid r).vendor_address = r.vendor_address ∧
      (verifyRow tid r).vendor_tax_id = r.vendor_tax_id ∧
      (verifyRow tid r).vendor_pdv = r.vendor_pdv ∧
      (verifyRow tid r).buyer_name = r.buyer_name ∧
      (verifyRow tid r).buyer_address = r.buyer_address ∧
      (verifyRow tid r).buyer_tax_id = r.buyer_tax_id ∧
      (verifyRow tid r).subtotal = r.subtotal ∧
      (verifyRow tid r).tax_amount = r.tax_amount ∧
      (verifyRow tid r).total_amount = r.total_amount ∧
      (verifyRow tid r).currency = r.currency ∧
      (verifyRow tid r).line_items = r.line_items ∧
      (verifyRow tid r).notes = r.notes ∧
      (verifyRow tid r).file_url = r.file_url ∧
      (verifyRow tid r).file_type = r.file_type ∧
      (verifyRow tid r).created_at = r.created_at ∧
      (verifyRow tid r).user_id = r.user_id) ∧
    (r.id ≠ tid → verifyRow tid r = r) ∧
    handleVerify tid [r] = [verifyRow tid r] := by
  refine ⟨by simp [verifyPayload], ?_, ?_, rfl⟩
  · intro h
    simp [verifyRow, h, applyPayload, verifyPayload]
  · intro h
    simp [verifyRow, h]

/-- A sample stored invoice row in status `processed`. -/
def invProcessed : Invoice :=
  ⟨"inv-1", some "F-7", some "2024-05-01", some "Dobavljac d.o.o.", none,
   some "100200300", none, some "Kupac d.o.o.", none, none,
   some (JSNumber.val 100), some (JSNumber.val 17), some (JSNumber.val 117),
   "EUR", JSValue.null, none, none, "pdf", "processed", "2024-05-02", "u-1"⟩

/-- C4 witness: verifying the sample row sets its status and keeps its
vendor, amounts and line items. -/
theorem handleVerify_writes_only_status_witness :
    (verifyRow "inv-1" invProcessed).status = "verified" ∧
      (verifyRow "inv-1" invProcessed).vendor_name = invProcessed.vendor_name ∧
      (verifyRow "inv-1" invProcessed).total_amount = invProcessed.total_amount ∧
      (verifyRow "inv-1" invProcessed).line_items = invProcessed.line_items :=
  by
  obtain ⟨hst, -, -, -, hvn, -, -, -, -, -, -, -, -, hta, -, hli, -⟩ :=
    (handleVerify_writes_only_status "inv-1" invProcessed).2.1 rfl
  exact ⟨hst, hvn, hta, hli⟩

/-- C5: refreshing with an empty membership list clears the selection;
with a non-empty list and a persisted id matching some entry, the
selection is restored to an entry with that id without re-persisting;
with no usable persisted match, the first entry is selected and its id
persisted; and the resulting selection always lies inside the resulting
membership list. -/
theorem refreshOrganizations_spec (fetched : List OrgEntry) (st : OrgState) :
    (fetched = [] → (refreshOrganizations fetched st).currentOrganization = none) ∧
    (∀ i, st.profileOrgId = some i → i ≠ "" →
      (∃ e, e ∈ fetched ∧ e.id = i) →
      ∃ e, (refreshOrganizations fetched st).currentOrganization = some e ∧
        e ∈ fetched ∧ e.id = i ∧
        (refreshOrganizations fetched st).profileOrgId = st.profileOrgId) ∧
    (∀ o0 rest, fetched = o0 :: rest →
      (∀ e ∈ fetched, normalizeSavedOrgId st.profileOrgId ≠ some e.id) →
      (refreshOrganizations fetched st).currentOrganization = some o0 ∧
        (refreshOrganizations fetched st).profileOrgId = some o0.id) ∧
    (∀ e, (refreshOrganizations fetched st).currentOrganization = some e →
      e ∈ (refreshOrganizations fetched st).organizations) := by
  refine ⟨?_, ?_, ?_, ?_⟩
  · rintro rfl
    rfl
  · rintro i hpid hne ⟨e, he, hid⟩
    have hnorm : normalizeSavedOrgId st.profileOrgId = some i := by
      rw [hpid]
      simp [normalizeSavedOrgId, hne]
    cases fetched with
    | nil => cases he
    | cons o0 rest =>
      cases hfind : (o0 :: rest).find?
          (fun o => normalizeSavedOrgId st.profileOrgId == some o.id) with
      | none =>
        exfalso
        rw [List.find?_eq_none] at hfind
        exact hfind e he (by simp [hnorm, hid])
      | some a =>
        refine ⟨a, ?_, List.mem_of_find?_eq_some hfind, ?_, ?_⟩
        · simp [refreshOrganizations, hfind]
        · have hpa := List.find?_some hfind
          rw [hnorm] at hpa
          have : (i == a.id) = true := by simpa using hpa
          exact (eq_of_beq this).symm
        · simp [refreshOrganizations, hfind]
  · rintro o0 rest rfl hnone
    have hfind : (o0 :: rest).find?
        (fun o => normalizeSavedOrgId st.profileOrgId == some o.id) = none := by
      rw [List.find?_eq_none]
      intro x hx hpx
      exact hnone x hx (by simpa using hpx)
    constructor <;> simp [refreshOrganizations, hfind]
  · intro e he
    cases fetched with
    | nil => simp [refreshOrganizations] at he
    | cons o0 rest =>
      cases hfind : (o0 :: rest).find?
          (fun o => normalizeSavedOrgId st.profileOrgId == some o.id) with
      | none =>
        simp only [refreshOrganizations, hfind] at he ⊢
        rw [Option.some_inj] at he
        subst he
        exact List.mem_cons_self o0 rest
      | some a =>
        simp only [refreshOrganizations, hfind] at he ⊢
        rw [Option.some_inj] at he
        subst he
        exact List.mem_of_find?_eq_some hfind

/-- A sample membership entry. -/
def orgAlpha : OrgEntry :=
  ⟨"org-a", "Alpha d.o.o.", some "111", none, none, none, none, none, none,
   none, ⟨none, none, none, none, none⟩, "owner"⟩

/-- A second sample membership entry. -/
def orgBeta : OrgEntry :=
  ⟨"org-b", "Beta d.o.o.", none, none, none, none, none, none, none,
   none, ⟨none, none, none, none, none⟩, "employee"⟩

/-- C5 witness: with the persisted id `org-b` present in the fetched
list, refresh restores that entry and does not re-persist. -/
theorem refreshOrganizations_spec_witness :
    ∃ e,
      (refreshOrganizations [orgAlpha, orgBeta]
            ⟨[], none, some "org-b"⟩).currentOrganization = some e ∧
      e ∈ [orgAlpha, orgBeta] ∧ e.id = "org-b" ∧
      (refreshOrganizations [orgAlpha, orgBeta]
            ⟨[], none, some "org-b"⟩).profileOrgId =
        (⟨[], none, some "org-b"⟩ : OrgState).profileOrgId :=
  (refreshOrganizations_spec [orgAlpha, orgBeta] ⟨[], none, some "org-b"⟩).2.1
    "org-b" rfl (by decide) ⟨orgBeta, by simp [orgBeta], by simp [orgBeta]⟩

/-- C6: switching to an id absent from the membership list leaves the
whole context state (selection and persisted id included) unchanged;
switching to a present id selects an entry with that id from the list and
persists exactly that id. -/
theorem switchOrganization_spec (orgId : String) (st : OrgState) :
    ((∀ e ∈ st.organizations, e.id ≠ orgId) →
      switchOrganization orgId st = st) ∧
    ((∃ e, e ∈ st.organizations ∧ e.id = orgId) →
      ∃ e, (switchOrganization orgId st).currentOrganization = some e ∧
        e ∈ st.organizations ∧ e.id = orgId ∧
        (switchOrganization orgId st).profileOrgId = some orgId ∧
        (switchOrganization orgId st).organizations = st.organizations) := by
  constructor
  · intro habs
    have hfind : st.organizations.find? (fun o => o.id == orgId) = none := by
      rw [List.find?_eq_none]
      intro x hx hpx
      exact habs x hx (by simpa using hpx)
    simp [switchOrganization, hfind]
  · rintro ⟨e, he, hid⟩
    cases hfind : st.organizations.find? (fun o => o.id == orgId) with
    | none =>
      exfalso
      rw [List.find?_eq_none] at hfind
      exact hfind e he (by simp [hid])
    | some a =>
      refine ⟨a, ?_, List.mem_of_find?_eq_some hfind, ?_, ?_, ?_⟩
      · simp [switchOrganization, hfind]
      · have hpa := List.find?_some hfind
        simpa using hpa
      · simp [switchOrganization, hfind]
      · simp [switchOrganization, hfind]

/-- C6 witness: switching to an absent id is a no-op on a populated
state; switching to `org-b` selects it and persists it. -/
theorem switchOrganization_spec_witness :
    switchOrganization "org-zzz" ⟨[orgAlpha, orgBeta], some orgAlpha, some "org-a"⟩ =
        ⟨[orgAlpha, orgBeta], some orgAlpha, some "org-a"⟩ ∧
      ∃ e,
        (switchOrganization "org-b"
              ⟨[orgAlpha, orgBeta], some orgAlpha, some "org-a"⟩).currentOrganization =
            some e ∧
          e ∈ [orgAlpha, orgBeta] ∧ e.id = "org-b" ∧
          (switchOrganization "org-b"
                ⟨[orgAlpha, orgBeta], some orgAlpha, some "org-a"⟩).profileOrgId =
            some "org-b" ∧
          (switchOrganization "org-b"
                ⟨[orgAlpha, orgBeta], some orgAlpha, some "org-a"⟩).organizations =
            [orgAlpha, orgBeta] :=
  ⟨(switchOrganization_spec "org-zzz"
      ⟨[orgAlpha, orgBeta], some orgAlpha, some "org-a"⟩).1 (by decide),
   (switchOrganization_spec "org-b"
      ⟨[orgAlpha, orgBeta], some orgAlpha, some "org-a"⟩).2
     ⟨orgBeta, by simp [orgBeta], by simp [orgBeta]⟩⟩

/-- C7: removing an owner is rejected up front - the outcome is the
error message, the table is untouched and no reload is triggered; for a
non-owner (once the confirm dialog is accepted) the membership rows with
the id of that member are deleted, all others are kept, and a list reload is
triggered. -/
theorem handleRemoveMember_spec (db : List Member) (m : Member) (confirmed : Bool) :
    (m.role = "owner" →
      handleRemoveMember db m confirmed =
        (RemoveResult.rejected "Ne mozete ukloniti vlasnika", db, false)) ∧
    (m.role ≠ "owner" → confirmed = true →
      (handleRemoveMember db m confirmed).1 = RemoveResult.removed ∧
      (handleRemoveMember db m confirmed).2.2 = true ∧
      ∀ x, x ∈ (handleRemoveMember db m confirmed).2.1 ↔
        x ∈ db ∧ x.id ≠ m.id) := by
  constructor
  · intro h
    simp [handleRemoveMember, h]
  · rintro h rfl
    refine ⟨by simp [handleRemoveMember, h], by simp [handleRemoveMember, h], ?_⟩
    intro x
    simp [handleRemoveMember, h, List.mem_filter]

/-- A sample owner membership row. -/
def ownerRow : Member := ⟨"mem-1", "u-1", "owner"⟩

/-- A sample employee membership row. -/
def employeeRow : Member := ⟨"mem-2", "u-2", "employee"⟩

/-- C7 witness: the owner row is rejected and the table kept; the
employee row is removed from the table and a reload fires. -/
theorem handleRemoveMember_spec_witness :
    handleRemoveMember [ownerRow, employeeRow] ownerRow true =
        (RemoveResult.rejected "Ne mozete ukloniti vlasnika",
          [ownerRow, employeeRow], false) ∧
      (handleRemoveMember [ownerRow, employeeRow] employeeRow true).1 =
        RemoveResult.removed ∧
      (handleRemoveMember [ownerRow, employeeRow] employeeRow true).2.2 = true ∧
      (ownerRow ∈ (handleRemoveMember [ownerRow, employeeRow] employeeRow true).2.1 ↔
        ownerRow ∈ [ownerRow, employeeRow] ∧ ownerRow.id ≠ employeeRow.id) := by
  have h1 := (handleRemoveMember_spec [ownerRow, employeeRow] ownerRow true).1 rfl
  have h2 := (handleRemoveMember_spec [ownerRow, employeeRow] employeeRow true).2
    (by decide) rfl
  exact ⟨h1, h2.1, h2.2.1, h2.2.2 ownerRow⟩

/-- C8 counterexample form data: the subtotal field holds the
non-numeric text `abc`. -/
def badFormData : SaveFormData :=
  ⟨"F-1", "2024-05-01", "V", "", "", "", "", "", "",
   NumField.ofStr "abc", NumField.ofNum (JSNumber.val 17),
   NumField.ofNum (JSNumber.val 117), "EUR", ""⟩

/-- C8 counterexample: saving with a non-numeric subtotal is NOT
rejected - `handleSave` emits a successful update whose subtotal is NaN,
contradicting the claim that such a save fails with a validation error. -/
theorem handleSave_accepts_nonnumeric_counterexample :
    handleSave badFormData =
      SaveResult.updated
        ⟨"F-1", "2024-05-01", "V", "", "", "", "", "", "",
         JSNumber.nan, JSNumber.val 17, JSNumber.val 117, "EUR", ""⟩ := by
  decide

/-- C8 (amended): `handleSave` coerces the three monetary fields with
`Number(...)` and never rejects: every save, whatever the field
contents, is emitted as an update whose monetary columns are the coerced
values (NaN when the text does not parse as a number). -/
theorem handleSave_coerces_silently (fd : SaveFormData) :
    ∃ p, handleSave fd = SaveResult.updated p ∧
      p.subtotal = jsToNumber fd.subtotal ∧
      p.tax_amount = jsToNumber fd.tax_amount ∧
      p.total_amount = jsToNumber fd.total_amount ∧
      ∀ msg, handleSave fd ≠ SaveResult.validationFailure msg :=
  ⟨_, rfl, rfl, rfl, rfl, fun _ h => by simp [handleSave] at h⟩

/-- C8 amended-claim witness: the coercion shape holds at the concrete
bad form data. -/
theorem handleSave_coerces_silently_witness :
    ∃ p, handleSave badFormData = SaveResult.updated p ∧
      p.subtotal = jsToNumber badFormData.subtotal ∧
      p.tax_amount = jsToNumber badFormData.tax_amount ∧
      p.total_amount = jsToNumber badFormData.total_amount ∧
      ∀ msg, handleSave badFormData ≠ SaveResult.validationFailure msg :=
  handleSave_coerces_silently badFormData

/-- C9: both merged reads (`companyData` in the verification view and the
merge effect of the settings form) prefer the first-class organization column
and fall back to the settings-map value, for each of pib, pdv_number,
address, email and phone; in particular first-class pib `123` wins over
settings pib `999`, and with no first-class address the settings address
`Main St` shows through. -/
theorem mergedRead_prefers_first_class (o : OrgEntry) :
    (o.pib = some "123" → o.settings.pib = some "999" →
      (companyData (some o)).pib = "123" ∧ (mergedProfileForm o).pib = "123") ∧
    (o.address = none → o.settings.address = some "Main St" →
      (companyData (some o)).address = "Main St" ∧
        (mergedProfileForm o).address = "Main St") ∧
    (∀ s, s ≠ "" → o.pib = some s →
      (companyData (some o)).pib = s ∧ (mergedProfileForm o).pib = s) ∧
    (∀ s, s ≠ "" → o.pdv_number = some s →
      (companyData (some o)).pdv_number = s ∧
        (mergedProfileForm o).pdv_number = s) ∧
    (∀ s, s ≠ "" → o.email = some s →
      (companyData (some o)).email = s ∧ (mergedProfileForm o).email = s) ∧
    (∀ s, s ≠ "" → o.phone = some s →
      (companyData (some o)).phone = s ∧ (mergedProfileForm o).phone = s) ∧
    (∀ s, s ≠ "" → o.address = some s → o.city = none → o.postal_code = none →
      (companyData (some o)).address = s ∧ (mergedProfileForm o).address = s) ∧
    (∀ v, o.pib = none → o.settings.pib = some v → v ≠ "" →
      (companyData (some o)).pib = v ∧ (mergedProfileForm o).pib = v) ∧
    (∀ v, o.pdv_number = none → o.settings.pdv_number = some v → v ≠ "" →
      (companyData (some o)).pdv_number = v ∧
        (mergedProfileForm o).pdv_number = v) ∧
    (∀ v, o.email = none → o.settings.email = some v → v ≠ "" →
      (companyData (some o)).email = v ∧ (mergedProfileForm o).email = v) ∧
    (∀ v, o.phone = none → o.settings.phone = some v → v ≠ "" →
      (companyData (some o)).phone = v ∧ (mergedProfileForm o).phone = v) := by
  refine ⟨?_, ?_, ?_, ?_, ?_, ?_, ?_, ?_, ?_, ?_, ?_⟩
  · intro h1 h2
    constructor <;> simp [companyData, mergedProfileForm, jsOrStr, h1, h2]
  · intro h1 h2
    constructor <;>
      simp [companyData, mergedProfileForm, jsOrStr, strTruthy, h1, h2]
  · intro s hs h
    constructor <;> simp [companyData, mergedProfileForm, jsOrStr, h, hs]
  · intro s hs h
    constructor <;> simp [companyData, mergedProfileForm, jsOrStr, h, hs]
  · intro s hs h
    constructor <;> simp [companyData, mergedProfileForm, jsOrStr, h, hs]
  · intro s hs h
    constructor <;> simp [companyData, mergedProfileForm, jsOrStr, h, hs]
  · intro s hs h hc hp
    constructor <;>
      simp [companyData, mergedProfileForm, composedAddress, strTruthy,
        h, hs, hc, hp]
  · intro v h1 h2 hv
    constructor <;> simp [companyData, mergedProfileForm, jsOrStr, h1, h2, hv]
  · intro v h1 h2 hv
    constructor <;> simp [companyData, mergedProfileForm, jsOrStr, h1, h2, hv]
  · intro v h1 h2 hv
    constructor <;> simp [companyData, mergedProfileForm, jsOrStr, h1, h2, hv]
  · intro v h1 h2 hv
    constructor <;> simp [companyData, mergedProfileForm, jsOrStr, h1, h2, hv]

/-- An organization with first-class pib `123`, no first-class address,
and settings holding pib `999` and address `Main St`. -/
def orgMergeDemo : OrgEntry :=
  ⟨"org-m", "Merge d.o.o.", some "123", none, none, none, none, none, none,
   none, ⟨some "999", none, some "Main St", none, none⟩, "owner"⟩

/-- C9 witness: on the sample organization both merged reads show pib
`123` and address `Main St`. -/
theorem mergedRead_prefers_first_class_witness :
    ((companyData (some orgMergeDemo)).pib = "123" ∧
        (mergedProfileForm orgMergeDemo).pib = "123") ∧
      (companyData (some orgMergeDemo)).address = "Main St" ∧
        (mergedProfileForm orgMergeDemo).address = "Main St" :=
  ⟨(mergedRead_prefers_first_class orgMergeDemo).1 rfl rfl,
   (mergedRead_prefers_first_class orgMergeDemo).2.1 rfl rfl⟩

/-- C10: precedence in the merge is decided by truthiness, not presence:
an empty-string first-class column loses to a non-empty settings value
for every one of the five merged fields, in both merged reads. -/
theorem mergedRead_truthiness_not_presence (o : OrgEntry) (v : String)
    (hv : v ≠ "") :
    (o.pib = some "" → o.settings.pib = some v →
      (companyData (some o)).pib = v ∧ (mergedProfileForm o).pib = v) ∧
    (o.pdv_number = some "" → o.settings.pdv_number = some v →
      (companyData (some o)).pdv_number = v ∧
        (mergedProfileForm o).pdv_number = v) ∧
    (o.address = some "" → o.settings.address = some v →
      (companyData (some o)).address = v ∧ (mergedProfileForm o).address = v) ∧
    (o.email = some "" → o.settings.email = some v →
      (companyData (some o)).email = v ∧ (mergedProfileForm o).email = v) ∧
    (o.phone = some "" → o.settings.phone = some v →
      (companyData (some o)).phone = v ∧ (mergedProfileForm o).phone = v) := by
  refine ⟨?_, ?_, ?_, ?_, ?_⟩ <;> intro h1 h2 <;> constructor <;>
    simp [companyData, mergedProfileForm, jsOrStr, strTruthy, h1, h2, hv]

/-- An organization whose first-class pib is the empty string while the
settings map holds pib `555`. -/
def orgEmptyPib : OrgEntry :=
  ⟨"org-e", "Empty d.o.o.", some "", none, none, none, none, none, none,
   none, ⟨some "555", none, none, none, none⟩, "owner"⟩

/-- C10 witness: the empty first-class pib loses to the settings value
`555` in both merged reads. -/
theorem mergedRead_truthiness_not_presence_witness :
    (companyData (some orgEmptyPib)).pib = "555" ∧
      (mergedProfileForm orgEmptyPib).pib = "555" :=
  (mergedRead_truthiness_not_presence orgEmptyPib "555" (by decide)).1 rfl rfl

end PdvPracenje
